import Mathlib

/-!
Shallow embedding of the hybrid RAG router of `summoningshells/ragmultihop`
(`src/hybrid_rag.py` and `src/neo4j_query.py`), together with theorems about
its question classifier, its graph-context extractor and formatter, and the
CO2 aggregation query.

External effects (the Qdrant retriever, the LLM generation call, the Neo4j
store) are abstracted as explicit function-valued parameters; everything the
repository itself computes (keyword scoring, rule dispatch, context
formatting, the Cypher CASE arithmetic of the CO2 query) is translated
faithfully from the source.
-/

set_option maxRecDepth 100000

namespace RagHybrid

/-- Lowercasing of a single character as Python `str.lower` acts on the
characters appearing in this code base: ASCII letters, the Latin-1 uppercase
letters (À..Þ except ×), and Œ. All other characters are unchanged. -/
def lowerChar (c : Char) : Char :=
  if 65 ≤ c.toNat ∧ c.toNat ≤ 90 then Char.ofNat (c.toNat + 32)
  else if 192 ≤ c.toNat ∧ c.toNat ≤ 222 ∧ c.toNat ≠ 215 then Char.ofNat (c.toNat + 32)
  else if c.toNat = 338 then Char.ofNat 339
  else c

/-- Python `question.lower()`. -/
def pyLower (s : String) : String := ⟨s.data.map lowerChar⟩

/-- Python's substring test `needle in hay` (contiguous substring). -/
def substrB (needle hay : String) : Bool := decide (needle.data <:+: hay.data)

/-- Python string joining with a separator, as in the source's
`"sep".join(parts)` calls. -/
def joinSep (sep : String) : List String → String
  | [] => ""
  | [x] => x
  | x :: y :: xs => x ++ sep ++ joinSep sep (y :: xs)

/-- `sum(1 for keyword in kws if keyword in s)` from `classify_question`. -/
def countMatches (kws : List String) (s : String) : Nat :=
  (kws.filter (fun kw => substrB kw s)).length

/-- The multi-hop keyword list of `HybridRAG.classify_question`
(`src/hybrid_rag.py` lines 35-49). -/
def multi_hop_keywords : List String :=
  ["quels événements", "quels salons", "où", "qui",
   "liste", "lister", "tous les", "combien",
   "total", "somme", "moyenne", "maximum", "minimum",
   "économisé", "co2", "carbone",
   "vendus à", "utilisés aux", "déployés à", "présentés à",
   "projets r&d", "recherche", "développement",
   "collectivités", "entreprises", "particuliers",
   "festival", "salon", "avec", "par"]

/-- The simple keyword list of `HybridRAG.classify_question`
(`src/hybrid_rag.py` lines 57-62). -/
def simple_keywords : List String :=
  ["qu\x27est-ce que", "c\x27est quoi", "décris", "describe",
   "caractéristiques", "specifications", "prix", "coût",
   "comment fonctionne", "fonctionnement",
   "garantie", "warranty", "maintenance"]

/-- `HybridRAG.classify_question` (`src/hybrid_rag.py` lines 29-70). -/
def classify_question (question : String) : String :=
  let question_lower := pyLower question
  let multi_hop_score := countMatches multi_hop_keywords question_lower
  let simple_score := countMatches simple_keywords question_lower
  if multi_hop_score > simple_score then "multi_hop" else "simple"

/-! ## Graph layer (`src/neo4j_query.py`) -/

/-- A value in a Neo4j result record as the formatter distinguishes them
(`isinstance(value, list)`): either a scalar carrying its Python `str(value)`
rendering, or a list carrying the renderings of its elements. -/
inductive Val where
  | scalar (rendered : String)
  | vlist (elems : List String)
deriving DecidableEq, Repr

/-- One result record (`dict(record)`): an insertion-ordered field list. -/
abbrev Row := List (String × Val)

/-- An element of the context list built by
`Neo4jQuerier.get_graph_context_for_question`. -/
structure GraphContextItem where
  query_type : String
  results : List Row
deriving DecidableEq, Repr

/-- The Neo4j store, abstracted as the results each fixed Cypher query of
`Neo4jQuerier` returns for given parameters. -/
structure GraphDB where
  events_with_products_sold_at_tradeshows : Option String → List Row
  total_co2_saved_by_product : String → List Row
  tradeshows_sales_by_customer_type : String → List Row
  rd_projects_for_festival_products : List Row
  products_by_battery_type : String → List Row
  top_revenue_tradeshows : Nat → List Row

/-- `any(word in question_lower for word in words)`. -/
def anyKw (words : List String) (ql : String) : Bool :=
  words.any (fun w => substrB w ql)

/-- The `if results: context.append({"query_type": ..., "results": results})`
step each rule ends with: a non-empty result list contributes one item,
an empty one contributes nothing. -/
def mkItem (name : String) (results : List Row) : List GraphContextItem :=
  if results.isEmpty then [] else [{ query_type := name, results := results }]

/-- The product-id list hard-coded in the CO2 rule
(`src/neo4j_query.py` line 216). -/
def product_ids : List String := ["PG-U01", "PG-M01", "PG-P01", "PG-C01", "PG-M02"]

/-- Rule 1 of `get_graph_context_for_question` (lines 201-212): events with
products sold at tradeshows, with the location parameter bound to "Paris"
when "pollutec" or "paris" occurs in the lowered question. -/
def rule1Items (db : GraphDB) (ql : String) : List GraphContextItem :=
  if anyKw ["événements", "events", "déploiements"] ql then
    if anyKw ["vendus", "sold", "salon", "tradeshow", "pollutec", "paris"] ql then
      let location := if substrB "pollutec" ql || substrB "paris" ql then some "Paris" else none
      mkItem "events_with_products_sold_at_tradeshows"
        (db.events_with_products_sold_at_tradeshows location)
    else []
  else []

/-- Rule 2 (lines 214-224): total CO2 saved, one query per product id whose
lowercase form occurs in the question. -/
def rule2Items (db : GraphDB) (ql : String) : List GraphContextItem :=
  if anyKw ["co2", "carbone", "émissions", "économisé"] ql then
    (product_ids.map (fun prod_id =>
      if substrB (pyLower prod_id) ql then
        mkItem ("total_co2_saved_by_" ++ prod_id) (db.total_co2_saved_by_product prod_id)
      else [])).flatten
  else []

/-- Rule 3 (lines 226-232): tradeshow sales to collectivités. -/
def rule3Items (db : GraphDB) (ql : String) : List GraphContextItem :=
  if anyKw ["collectivités", "collectivites", "municipalités"] ql then
    mkItem "tradeshows_collectivites_sales" (db.tradeshows_sales_by_customer_type "collectivites")
  else []

/-- Rule 4 (lines 234-241): R&D projects for festival products. -/
def rule4Items (db : GraphDB) (ql : String) : List GraphContextItem :=
  if anyKw ["r&d", "recherche", "développement", "projets"] ql then
    if anyKw ["festival", "événements", "coûts", "réduire"] ql then
      mkItem "rd_projects_for_festivals" db.rd_projects_for_festival_products
    else []
  else []

/-- Rule 5 (lines 243-255): products by battery type. -/
def rule5Items (db : GraphDB) (ql : String) : List GraphContextItem :=
  if anyKw ["batterie", "battery", "lifepo4", "tesla"] ql then
    let battery_type :=
      if substrB "lifepo4" ql then "LiFePO4"
      else if substrB "tesla" ql then "Tesla"
      else ""
    if battery_type = "" then [] else
      mkItem ("products_with_" ++ battery_type ++ "_battery")
        (db.products_by_battery_type battery_type)
  else []

/-- Rule 6 (lines 257-263): top tradeshows by revenue. -/
def rule6Items (db : GraphDB) (ql : String) : List GraphContextItem :=
  if anyKw ["top", "meilleurs", "plus", "salons", "revenus"] ql then
    mkItem "top_revenue_tradeshows" (db.top_revenue_tradeshows 5)
  else []

/-- `Neo4jQuerier.get_graph_context_for_question` (lines 192-265): the six
rules are checked in sequence and their contributions appended. -/
def get_graph_context_for_question (db : GraphDB) (question : String) : List GraphContextItem :=
  let ql := pyLower question
  rule1Items db ql ++ rule2Items db ql ++ rule3Items db ql ++
    rule4Items db ql ++ rule5Items db ql ++ rule6Items db ql

/-- Rendering of one value in `format_graph_context`: list values are joined
with ", ", scalars print as themselves. -/
def formatVal : Val → String
  | Val.scalar s => s
  | Val.vlist es => joinSep ", " es

/-- The per-row lines `f"\x7bkey\x7d: \x7bvalue\x7d"` of `format_graph_context`. -/
def formatRowLines (r : Row) : List String :=
  r.map (fun kv => kv.1 ++ ": " ++ formatVal kv.2)

/-- The parts contributed to `formatted_parts` by one context item
(`src/neo4j_query.py` lines 275-291). -/
def formatItemParts (item : GraphContextItem) : List String :=
  if item.results.isEmpty then []
  else ("\n=== Résultats de la requête: " ++ item.query_type ++ " ===\n") ::
    (item.results.map (fun r => formatRowLines r ++ ["---"])).flatten

/-- `Neo4jQuerier.format_graph_context` (lines 267-292). -/
def format_graph_context (context : List GraphContextItem) : String :=
  if context.isEmpty then ""
  else joinSep "\n" ((context.map formatItemParts).flatten)

/-! ## The CO2 aggregation query (`src/neo4j_query.py` lines 53-74)

The arithmetic lives in the Cypher text of
`query_total_co2_saved_by_product`; it is embedded here over ℚ (the decimal
literals involved are exact rationals). -/

/-- Digit run to a natural number (most significant first); digits assumed. -/
def natFromDigits (cs : List Char) : Nat :=
  cs.foldl (fun n c => n * 10 + (c.toNat - 48)) 0

/-- Cypher `toFloat` on a plain decimal literal (optional sign, digits,
optional point and digits); any other string yields `none`, as `toFloat`
yields null. -/
def parseFloat (s : String) : Option ℚ :=
  let signAndRest : ℚ × List Char :=
    match s.data with
    | '-' :: r => (-1, r)
    | '+' :: r => (1, r)
    | r => (1, r)
  let sign := signAndRest.1
  let rest := signAndRest.2
  let intPart := rest.takeWhile Char.isDigit
  let rest2 := rest.drop intPart.length
  match rest2 with
  | [] => if intPart.isEmpty then none else some (sign * natFromDigits intPart)
  | '.' :: frac =>
    if frac.all Char.isDigit ∧ ¬(intPart.isEmpty ∧ frac.isEmpty) then
      some (sign * ((natFromDigits intPart : ℚ) +
        (natFromDigits frac : ℚ) / ((10 : ℚ) ^ frac.length)))
    else none
  | _ => none

/-- One `DEPLOYED_AT` relationship matched by the CO2 query: the event's
`co2_reduction` property and the relationship's optional `quantity`. -/
structure Deployment where
  co2_reduction : String
  quantity : Option ℚ
deriving Repr

/-- `split(s, ' ')[0]` from the Cypher text: the characters before the
first space. -/
def firstSpaceToken (s : String) : String :=
  ⟨s.data.takeWhile (fun c => c ≠ ' ')⟩

/-- The Cypher CASE expression of `query_total_co2_saved_by_product`:
`WHEN e.co2_reduction CONTAINS 'tonnes' THEN
   toFloat(split(e.co2_reduction, ' ')[0]) * COALESCE(d.quantity, 1)
 ELSE 0`.
`split` splits on the space character; a null produced by a failing
`toFloat` is skipped by the `sum` aggregate, i.e. contributes 0. -/
def co2_saved (d : Deployment) : ℚ :=
  if substrB "tonnes" d.co2_reduction then
    match parseFloat (firstSpaceToken d.co2_reduction) with
    | some x => x * d.quantity.getD 1
    | none => 0
  else 0

/-- The `sum(co2_saved)` aggregate over the matched deployments of one
product. -/
def total_co2_saved_tonnes (deps : List Deployment) : ℚ :=
  (deps.map co2_saved).sum

/-- Modelled from the spec sentence the claim quotes: parsing "by splitting
on whitespace and taking the first token" — Python-style whitespace
splitting — with the same CONTAINS-guard and quantity product as the code.
Compared against `co2_saved`, which splits on the space character only. -/
def co2_saved_wsSplit (d : Deployment) : ℚ :=
  if substrB "tonnes" d.co2_reduction then
    match parseFloat
        ⟨(d.co2_reduction.data.dropWhile Char.isWhitespace).takeWhile
          (fun c => ¬ c.isWhitespace)⟩ with
    | some x => x * d.quantity.getD 1
    | none => 0
  else 0

/-! ## Router layer (`src/hybrid_rag.py`) -/

/-- A retrieved document; only its `page_content` (and abstract identity)
matters to the router. -/
structure Doc where
  page_content : String
deriving DecidableEq, Repr

/-- The external effects of `HybridRAG`: the Qdrant retriever
(`as_retriever(search_kwargs=k).invoke`) and the LLM chain
(`prompt | llm | StrOutputParser`), abstracted as functions. -/
structure Env where
  retrieve : String → Nat → List Doc
  generate : String → String

/-- The filled dual-context prompt template of `query_hybrid`
(`src/hybrid_rag.py` lines 86-104). -/
def hybrid_prompt (vector_context graph_context question : String) : String :=
  "Tu es un assistant expert sur GreenPower Solutions et leurs produits solaires autonomes.\n\n" ++
  "Tu dois répondre à la question en utilisant DEUX sources de contexte:\n\n" ++
  "1. CONTEXTE VECTORIEL (descriptions détaillées, documents):\n" ++ vector_context ++
  "\n\n2. CONTEXTE GRAPHE (relations, agrégations, connexions):\n" ++ graph_context ++
  "\n\nUtilise prioritairement le CONTEXTE GRAPHE pour les informations relationnelles (qui, où, combien, total, etc.)\n" ++
  "et le CONTEXTE VECTORIEL pour les descriptions détaillées et spécifications.\n\n" ++
  "Si une information n\x27est pas présente dans les contextes, dis clairement que tu ne sais pas.\n" ++
  "Ne fabrique pas de réponses.\n\nQUESTION: " ++ question ++ "\n\nRÉPONSE:"

/-- The filled single-context prompt template of `query_simple`
(`src/hybrid_rag.py` lines 134-143). -/
def simple_prompt (context question : String) : String :=
  "Tu dois répondre UNIQUEMENT à partir des informations fournies dans le CONTEXTE ci-dessous.\n" ++
  "Si une information n\x27est pas présente dans le CONTEXTE, dis clairement que tu ne sais pas.\n" ++
  "Ne fabrique pas de réponses.\n\nCONTEXTE:\n" ++ context ++
  "\n\nQUESTION: " ++ question ++ "\n\nRÉPONSE:"

/-- The dict `HybridRAG.query_*` returns: `answer`, `sources` (vector docs,
and the raw graph context on the hybrid path only), and `strategy`. -/
structure QueryResult where
  answer : String
  vector_docs : List Doc
  graph_context : Option (List GraphContextItem)
  strategy : String
deriving Repr

/-- `HybridRAG.query_hybrid` (`src/hybrid_rag.py` lines 72-124). -/
def query_hybrid (env : Env) (db : GraphDB) (question : String) : QueryResult :=
  let graph_context_raw := get_graph_context_for_question db question
  let graph_context := format_graph_context graph_context_raw
  let vector_docs := env.retrieve question 3
  let vector_context := joinSep "\n\n" (vector_docs.map Doc.page_content)
  let answer := env.generate (hybrid_prompt vector_context
    (if graph_context = "" then "Aucune information relationnelle trouvée." else graph_context)
    question)
  { answer := answer
    vector_docs := vector_docs
    graph_context := some graph_context_raw
    strategy := "hybrid" }

/-- `HybridRAG.query_simple` (`src/hybrid_rag.py` lines 126-159). -/
def query_simple (env : Env) (_db : GraphDB) (question : String) : QueryResult :=
  let vector_docs := env.retrieve question 3
  let vector_context := joinSep "\n\n" (vector_docs.map Doc.page_content)
  let answer := env.generate (simple_prompt vector_context question)
  { answer := answer
    vector_docs := vector_docs
    graph_context := none
    strategy := "simple" }

/-- `HybridRAG.query` (`src/hybrid_rag.py` lines 161-183): a truthy
`force_strategy` (non-`None`, non-empty) replaces the classifier verdict;
the string "multi_hop" selects the hybrid path, anything else the simple
path. -/
def query (env : Env) (db : GraphDB) (question : String)
    (force_strategy : Option String) : QueryResult :=
  let strategy :=
    match force_strategy with
    | some s => if s = "" then classify_question question else s
    | none => classify_question question
  if strategy = "multi_hop" then query_hybrid env db question
  else query_simple env db question

/-! ## Concrete environments used by witnesses and counterexamples -/

/-- A trivial external environment: empty retrievals, empty generations. -/
def env0 : Env := { retrieve := fun _ _ => [], generate := fun _ => "" }

/-- A store on which every query returns no rows. -/
def db0 : GraphDB :=
  { events_with_products_sold_at_tradeshows := fun _ => []
    total_co2_saved_by_product := fun _ => []
    tradeshows_sales_by_customer_type := fun _ => []
    rd_projects_for_festival_products := []
    products_by_battery_type := fun _ => []
    top_revenue_tradeshows := fun _ => [] }

/-- A store on which every query returns one distinctive row. -/
def db1 : GraphDB :=
  { events_with_products_sold_at_tradeshows := fun loc =>
      [[("event_name", Val.scalar "Festival Solidays"),
        ("event_location", Val.scalar (match loc with | some l => l | none => "n/a"))]]
    total_co2_saved_by_product := fun pid =>
      [[("product_id", Val.scalar pid), ("total_co2_saved_tonnes", Val.scalar "25.0")]]
    tradeshows_sales_by_customer_type := fun ct =>
      [[("tradeshow_name", Val.scalar "Pollutec Paris"), ("customer_type", Val.scalar ct)]]
    rd_projects_for_festival_products :=
      [[("rd_project_name", Val.scalar "NextGen Battery")]]
    products_by_battery_type := fun bt =>
      [[("product_name", Val.scalar "PG-M01"), ("battery_type", Val.scalar bt)]]
    top_revenue_tradeshows := fun _ =>
      [[("name", Val.scalar "Pollutec Paris"), ("total_sales", Val.scalar "911750.0")]] }

/-- A multi-hop sample question of `QueryExamples.MULTI_HOP_QUESTIONS`. -/
def qCO2 : String := "Quel est le CO2 total économisé par le produit PG-M01?"

/-- The question of end-to-end scenario 2. -/
def qPollutec : String := "Quels événements ont utilisé des produits vendus à Pollutec Paris?"

/-- A question triggering both the collectivités rule and the top-revenue
rule of the extractor. -/
def qTwoRules : String := "Quels salons ont généré le plus de revenus avec les collectivités?"

/-- A question containing no extractor trigger keyword. -/
def qNoTrigger : String := "Bonjour, comment allez-vous?"

/-- A reduction string whose first whitespace-separated token and first
space-separated token differ (the separator is a tab). -/
def dTab : Deployment := { co2_reduction := "12.5\ttonnes", quantity := some 1 }

/-- A two-row context item used to exercise the separator count. -/
def itW : GraphContextItem :=
  { query_type := "top_revenue_tradeshows"
    results := [[("name", Val.scalar "Pollutec Paris"), ("total_sales", Val.scalar "911750.0")],
                [("name", Val.scalar "Salon EnviroPro"), ("products", Val.vlist ["PG-U01", "PG-M01"])]] }

/-- A one-item context holding the round-trip example row. -/
def ctx9 : List GraphContextItem :=
  [{ query_type := "top_revenue_tradeshows"
     results := [[("name", Val.scalar "Pollutec Paris"), ("total_sales", Val.scalar "911750.0")]] }]

/-! ## Line structure of the formatted context

`format_graph_context` joins its parts with `"\n"`; the row separator the
spec speaks about is the line consisting of `---`. `linesCh` splits a
character sequence at newlines, `sepLineCount` counts the separator lines of
a string. -/

/-- The lines of a character sequence: maximal newline-free runs. -/
def linesCh : List Char → List (List Char)
  | [] => [[]]
  | c :: rest =>
    if c = '\n' then [] :: linesCh rest
    else
      match linesCh rest with
      | [] => [[c]]
      | l :: ls => (c :: l) :: ls

/-- The number of row-separator lines (`---`) in a string. -/
def sepLineCount (s : String) : Nat :=
  (linesCh s.data).count ['-', '-', '-']

/-- No newline character occurs in the string. -/
def nlFree (s : String) : Bool := s.data.all (fun c => c ≠ '\n')

/-- No newline occurs in a value's rendering. -/
def nlFreeVal : Val → Bool
  | Val.scalar s => nlFree s
  | Val.vlist es => es.all nlFree

/-- No newline occurs in any field name or value rendering of the row. -/
def nlFreeRow (r : Row) : Bool :=
  r.all (fun kv => nlFree kv.1 && nlFreeVal kv.2)

/-- No newline occurs in the item's query type nor in any of its rows. -/
def nlFreeItem (it : GraphContextItem) : Bool :=
  nlFree it.query_type && it.results.all nlFreeRow

/-- Separator-line count summed over a list of parts. -/
def sepCountParts (parts : List String) : Nat :=
  (parts.map (fun p => (linesCh p.data).count ['-', '-', '-'])).sum

lemma linesCh_ne_nil (cs : List Char) : linesCh cs ≠ [] := by
  induction cs with
  | nil => simp [linesCh]
  | cons c rest ih =>
    simp only [linesCh]
    split
    · simp
    · rcases h : linesCh rest with _ | ⟨l, ls⟩
      · exact absurd h ih
      · simp

lemma linesCh_append_newline (a b : List Char) :
    linesCh (a ++ '\n' :: b) = linesCh a ++ linesCh b := by
  induction a with
  | nil => simp [linesCh]
  | cons c a ih =>
    by_cases hc : c = '\n'
    · subst hc
      simp [linesCh, ih]
    · simp only [List.cons_append, linesCh, if_neg hc, List.append_eq]
      rcases h : linesCh a with _ | ⟨l, ls⟩
      · exact absurd h (linesCh_ne_nil a)
      · rw [ih, h]
        simp

lemma linesCh_of_nlFree (cs : List Char) (h : ∀ c ∈ cs, c ≠ '\n') :
    linesCh cs = [cs] := by
  induction cs with
  | nil => simp [linesCh]
  | cons c rest ih =>
    have hc : c ≠ '\n' := h c (by simp)
    simp only [linesCh, if_neg hc]
    rw [ih (fun x hx => h x (by simp [hx]))]

lemma count_sep_single_of_ne (p : List Char) (h : p ≠ ['-', '-', '-']) :
    List.count ['-', '-', '-'] [p] = 0 := by
  simp [List.count_cons, h]

lemma sepCountParts_append (a b : List String) :
    sepCountParts (a ++ b) = sepCountParts a + sepCountParts b := by
  simp [sepCountParts]

lemma linesCh_cons_newline (xs : List Char) : linesCh ('\n' :: xs) = [] :: linesCh xs := by
  simp [linesCh]

lemma count_sep_of_colon_mem (p : List Char) (hnl : ∀ c ∈ p, c ≠ '\n')
    (hc : ':' ∈ p) :
    (linesCh p).count ['-', '-', '-'] = 0 := by
  rw [linesCh_of_nlFree _ hnl]
  refine count_sep_single_of_ne _ (fun h => ?_)
  rw [h] at hc
  simp at hc

lemma nlFree_chars (s : String) (h : nlFree s = true) : ∀ c ∈ s.data, c ≠ '\n' := by
  simpa [nlFree] using h

lemma joinSep_nlFree_chars (sep : String) (hsep : ∀ c ∈ sep.data, c ≠ '\n')
    (xs : List String) (h : ∀ x ∈ xs, ∀ c ∈ x.data, c ≠ '\n') :
    ∀ c ∈ (joinSep sep xs).data, c ≠ '\n' := by
  induction xs with
  | nil => simp [joinSep]
  | cons x xs ih =>
    cases xs with
    | nil => simpa [joinSep] using h x (by simp)
    | cons y ys =>
      simp only [joinSep, String.data_append, List.mem_append]
      rintro c ((hc | hc) | hc)
      · exact h x (by simp) c hc
      · exact hsep c hc
      · exact ih (fun z hz => h z (List.mem_cons_of_mem _ hz)) c hc

lemma formatVal_nlFree_chars (v : Val) (h : nlFreeVal v = true) :
    ∀ c ∈ (formatVal v).data, c ≠ '\n' := by
  cases v with
  | scalar s => exact nlFree_chars s (by simpa [nlFreeVal] using h)
  | vlist es =>
    refine joinSep_nlFree_chars ", " (by decide) es (fun x hx => nlFree_chars x ?_)
    simp only [nlFreeVal, List.all_eq_true] at h
    exact h x hx

lemma sepCountParts_formatRowLines (r : Row) (h : nlFreeRow r = true) :
    sepCountParts (formatRowLines r) = 0 := by
  induction r with
  | nil => simp [sepCountParts, formatRowLines]
  | cons kv r ih =>
    simp only [nlFreeRow, List.all_cons, Bool.and_eq_true] at h
    have hline : (linesCh (kv.1 ++ ": " ++ formatVal kv.2).data).count ['-', '-', '-'] = 0 := by
      refine count_sep_of_colon_mem _ ?_ ?_
      · simp only [String.data_append, List.mem_append]
        rintro c ((hc | hc) | hc)
        · exact nlFree_chars kv.1 h.1.1 c hc
        · exact (by decide : ∀ x ∈ ": ".data, x ≠ '\n') c hc
        · exact formatVal_nlFree_chars kv.2 h.1.2 c hc
      · simp only [String.data_append, List.mem_append]
        left; right; decide
    simp only [formatRowLines, List.map_cons, sepCountParts, List.sum_cons, hline]
    simpa [sepCountParts, formatRowLines] using ih (by simpa [nlFreeRow] using h.2)

lemma count_sep_header (qt : String) (h : ∀ c ∈ qt.data, c ≠ '\n') :
    (linesCh ("\n=== Résultats de la requête: " ++ qt ++ " ===\n").data).count ['-', '-', '-'] = 0 := by
  have h0 : ("\n=== Résultats de la requête: " ++ qt ++ " ===\n").data
      = '\n' :: ("=== Résultats de la requête: ".data ++
          (qt.data ++ ([' ', '=', '=', '='] ++ ['\n']))) := rfl
  have h1 : "=== Résultats de la requête: ".data ++ (qt.data ++ ([' ', '=', '=', '='] ++ ['\n']))
      = ("=== Résultats de la requête: ".data ++ (qt.data ++ [' ', '=', '=', '='])) ++ '\n' :: [] := by
    simp
  have h2 : linesCh ('\n' :: (("=== Résultats de la requête: ".data ++
      (qt.data ++ [' ', '=', '=', '='])) ++ '\n' :: []))
      = [] :: (linesCh ("=== Résultats de la requête: ".data ++
          (qt.data ++ [' ', '=', '=', '='])) ++ linesCh []) := by
    rw [linesCh_cons_newline, linesCh_append_newline]
  have hmid : linesCh ("=== Résultats de la requête: ".data ++ (qt.data ++ [' ', '=', '=', '=']))
      = ["=== Résultats de la requête: ".data ++ (qt.data ++ [' ', '=', '=', '='])] := by
    refine linesCh_of_nlFree _ ?_
    simp only [List.mem_append]
    rintro c (hc | (hc | hc))
    · exact (by decide : ∀ x ∈ "=== Résultats de la requête: ".data, x ≠ '\n') c hc
    · exact h c hc
    · exact (by decide : ∀ x ∈ [' ', '=', '=', '='], x ≠ '\n') c hc
  rw [h0, h1, h2, hmid]
  have hne : "=== Résultats de la requête: ".data ++ (qt.data ++ [' ', '=', '=', '='])
      ≠ ['-', '-', '-'] := by
    intro hcontra
    have : (':' : Char) ∈ ['-', '-', '-'] := by
      rw [← hcontra]
      simp only [List.mem_append]
      left; decide
    simp at this
  simp [linesCh, List.count_cons, hne]

lemma sepCountParts_rows (rs : List Row) (h : ∀ r ∈ rs, nlFreeRow r = true) :
    sepCountParts ((rs.map (fun r => formatRowLines r ++ ["---"])).flatten) = rs.length := by
  induction rs with
  | nil => simp [sepCountParts]
  | cons r rs ih =>
    simp only [List.map_cons, List.flatten_cons]
    rw [sepCountParts_append, sepCountParts_append,
      sepCountParts_formatRowLines r (h r (by simp)),
      ih (fun x hx => h x (List.mem_cons_of_mem _ hx))]
    have hsep : sepCountParts ["---"] = 1 := by decide
    simp [hsep, List.length_cons, Nat.add_comm]

lemma sepCountParts_item (it : GraphContextItem) (h : nlFreeItem it = true) :
    sepCountParts (formatItemParts it) = it.results.length := by
  simp only [nlFreeItem, Bool.and_eq_true, List.all_eq_true] at h
  by_cases he : it.results.isEmpty
  · rw [List.isEmpty_iff] at he
    simp [formatItemParts, he, sepCountParts]
  · have he' : it.results.isEmpty = false := by
      simpa [List.isEmpty_iff, List.isEmpty_eq_false] using he
    simp only [formatItemParts, he', Bool.false_eq_true, if_false]
    show sepCountParts (_ :: _) = _
    have : sepCountParts (("\n=== Résultats de la requête: " ++ it.query_type ++ " ===\n") ::
        (it.results.map (fun r => formatRowLines r ++ ["---"])).flatten)
        = (linesCh ("\n=== Résultats de la requête: " ++ it.query_type ++ " ===\n").data).count
            ['-', '-', '-'] +
          sepCountParts ((it.results.map (fun r => formatRowLines r ++ ["---"])).flatten) := by
      simp [sepCountParts]
    rw [this, count_sep_header it.query_type (nlFree_chars _ h.1),
      sepCountParts_rows it.results h.2]
    simp

lemma count_linesCh_joinSep (parts : List String) :
    (linesCh (joinSep "\n" parts).data).count ['-', '-', '-'] = sepCountParts parts := by
  induction parts with
  | nil => decide
  | cons x xs ih =>
    cases xs with
    | nil => simp [joinSep, sepCountParts]
    | cons y ys =>
      have hnl : ("\n" : String).data = ['\n'] := rfl
      have hdata : (joinSep "\n" (x :: y :: ys)).data
          = x.data ++ '\n' :: (joinSep "\n" (y :: ys)).data := by
        show (x ++ "\n" ++ joinSep "\n" (y :: ys)).data = _
        simp [String.data_append, hnl, List.append_assoc]
      rw [hdata, linesCh_append_newline, List.count_append, ih]
      show _ = sepCountParts (x :: (y :: ys))
      simp [sepCountParts]

lemma mem_joinSep_infix (sep : String) (parts : List String) (p : String)
    (hp : p ∈ parts) :
    p.data <:+: (joinSep sep parts).data := by
  induction parts with
  | nil => simp at hp
  | cons x xs ih =>
    cases xs with
    | nil =>
      simp only [List.mem_singleton] at hp
      subst hp
      exact List.infix_refl _
    | cons y ys =>
      rcases List.mem_cons.mp hp with rfl | hmem
      · refine ⟨[], sep.data ++ (joinSep sep (y :: ys)).data, ?_⟩
        show [] ++ p.data ++ _ = (p ++ sep ++ joinSep sep (y :: ys)).data
        simp [String.data_append, List.append_assoc]
      · obtain ⟨s, t, hst⟩ := ih hmem
        refine ⟨x.data ++ sep.data ++ s, t, ?_⟩
        show _ = (x ++ sep ++ joinSep sep (y :: ys)).data
        simp only [String.data_append, ← hst, List.append_assoc]

/-- The line `key: value` of any field of any row of any item of the context
occurs as a contiguous substring of the formatted context. -/
lemma field_line_infix (ctx : List GraphContextItem) (it : GraphContextItem) (r : Row)
    (kv : String × Val) (hit : it ∈ ctx) (hr : r ∈ it.results) (hkv : kv ∈ r) :
    (kv.1 ++ ": " ++ formatVal kv.2).data <:+: (format_graph_context ctx).data := by
  have hctxne : ctx.isEmpty = false := List.isEmpty_eq_false.mpr (List.ne_nil_of_mem hit)
  simp only [format_graph_context, hctxne, Bool.false_eq_true, if_false]
  apply mem_joinSep_infix
  refine List.mem_flatten.mpr ⟨formatItemParts it, List.mem_map_of_mem _ hit, ?_⟩
  have hresne : it.results.isEmpty = false := List.isEmpty_eq_false.mpr (List.ne_nil_of_mem hr)
  simp only [formatItemParts, hresne, Bool.false_eq_true, if_false]
  refine List.mem_cons_of_mem _ (List.mem_flatten.mpr
    ⟨formatRowLines r ++ ["---"], List.mem_map_of_mem _ hr, ?_⟩)
  exact List.mem_append_left _ (List.mem_map_of_mem _ hkv)

/-! ## Membership in the extractor output -/

lemma mem_mkItem (name : String) (rs : List Row) (it : GraphContextItem)
    (h : it ∈ mkItem name rs) : it = ⟨name, rs⟩ ∧ rs ≠ [] := by
  unfold mkItem at h
  split at h
  · simp at h
  · rename_i hne
    simp only [List.mem_singleton] at h
    exact ⟨h, by simpa [List.isEmpty_iff] using hne⟩

lemma results_ne_nil_of_mem_rule1 (db : GraphDB) (ql : String) (it : GraphContextItem)
    (h : it ∈ rule1Items db ql) : it.results ≠ [] := by
  unfold rule1Items at h
  split at h
  · split at h
    · obtain ⟨rfl, hne⟩ := mem_mkItem _ _ _ h
      simpa using hne
    · simp at h
  · simp at h

lemma results_ne_nil_of_mem_rule2 (db : GraphDB) (ql : String) (it : GraphContextItem)
    (h : it ∈ rule2Items db ql) : it.results ≠ [] := by
  unfold rule2Items at h
  split at h
  · rw [List.mem_flatten] at h
    obtain ⟨sub, hsub, hit⟩ := h
    rw [List.mem_map] at hsub
    obtain ⟨pid, _, rfl⟩ := hsub
    split at hit
    · obtain ⟨rfl, hne⟩ := mem_mkItem _ _ _ hit
      simpa using hne
    · simp at hit
  · simp at h

lemma results_ne_nil_of_mem_rule3 (db : GraphDB) (ql : String) (it : GraphContextItem)
    (h : it ∈ rule3Items db ql) : it.results ≠ [] := by
  unfold rule3Items at h
  split at h
  · obtain ⟨rfl, hne⟩ := mem_mkItem _ _ _ h
    simpa using hne
  · simp at h

lemma results_ne_nil_of_mem_rule4 (db : GraphDB) (ql : String) (it : GraphContextItem)
    (h : it ∈ rule4Items db ql) : it.results ≠ [] := by
  unfold rule4Items at h
  split at h
  · split at h
    · obtain ⟨rfl, hne⟩ := mem_mkItem _ _ _ h
      simpa using hne
    · simp at h
  · simp at h

lemma results_ne_nil_of_mem_rule5 (db : GraphDB) (ql : String) (it : GraphContextItem)
    (h : it ∈ rule5Items db ql) : it.results ≠ [] := by
  unfold rule5Items at h
  split at h
  · split at h
    · obtain ⟨rfl, hne⟩ := mem_mkItem _ _ _ h
      simpa using hne
    · split at h
      · obtain ⟨rfl, hne⟩ := mem_mkItem _ _ _ h
        simpa using hne
      · simp at h
  · simp at h

lemma results_ne_nil_of_mem_rule6 (db : GraphDB) (ql : String) (it : GraphContextItem)
    (h : it ∈ rule6Items db ql) : it.results ≠ [] := by
  unfold rule6Items at h
  split at h
  · obtain ⟨rfl, hne⟩ := mem_mkItem _ _ _ h
    simpa using hne
  · simp at h

/-! ## Claim theorems -/

/-- C1: the spec's invariant says the result's `strategy` field names the
executed strategy, with the multi-hop/hybrid path returning the string
"multi_hop". On the question "Quel est le CO2 total économisé par le produit
PG-M01?" the classifier does return "multi_hop" and the hybrid path runs
(also when forced), yet the result's `strategy` field is the string
"hybrid", not "multi_hop"; the simple path does return "simple". The
repository's own UI (`app_hybrid.py` line 697) compares the field against
"multi_hop", so the "hybrid" literal in `query_hybrid` contradicts its
callers: the code, not the claim, is at fault. -/
theorem hybrid_path_reports_hybrid_not_multi_hop :
    classify_question qCO2 = "multi_hop" ∧
    (query env0 db0 qCO2 none).strategy = "hybrid" ∧
    (query env0 db0 qCO2 none).strategy ≠ "multi_hop" ∧
    (query env0 db0 qCO2 (some "multi_hop")).strategy = "hybrid" ∧
    (query env0 db0 "Qu\x27est-ce que le produit GreenPower Max?" none).strategy = "simple" :=
  ⟨by decide, by decide, by decide, by decide, by decide⟩

/-- C2: `classify_question` returns "multi_hop" exactly when the number of
multi-hop keywords occurring (case-insensitively) in the question strictly
exceeds the number of simple keywords so occurring, and returns "simple" in
every other case, ties included. -/
theorem classify_question_multi_hop_iff_strict_majority (q : String) :
    (classify_question q = "multi_hop" ↔
      countMatches simple_keywords (pyLower q) < countMatches multi_hop_keywords (pyLower q)) ∧
    (classify_question q = "simple" ↔
      ¬ countMatches simple_keywords (pyLower q) < countMatches multi_hop_keywords (pyLower q)) := by
  have hne : ("multi_hop" : String) ≠ "simple" := by decide
  simp only [classify_question, gt_iff_lt]
  by_cases h : countMatches simple_keywords (pyLower q) < countMatches multi_hop_keywords (pyLower q)
  · simp [h, hne]
  · simp [h, hne.symm]

/-- C3: every item the extractor returns has a non-empty `results` list; a
store on which every query is empty yields no items for any question; and a
question firing no rule yields the empty list for every store. -/
theorem graph_context_invariants :
    (∀ (db : GraphDB) (q : String) (it : GraphContextItem),
        it ∈ get_graph_context_for_question db q → it.results ≠ []) ∧
    (∀ q : String, get_graph_context_for_question db0 q = []) ∧
    (∀ db : GraphDB, get_graph_context_for_question db qNoTrigger = []) := by
  refine ⟨?_, ?_, fun db => rfl⟩
  · intro db q it h
    simp only [get_graph_context_for_question, List.mem_append] at h
    rcases h with ((((h | h) | h) | h) | h) | h
    · exact results_ne_nil_of_mem_rule1 _ _ _ h
    · exact results_ne_nil_of_mem_rule2 _ _ _ h
    · exact results_ne_nil_of_mem_rule3 _ _ _ h
    · exact results_ne_nil_of_mem_rule4 _ _ _ h
    · exact results_ne_nil_of_mem_rule5 _ _ _ h
    · exact results_ne_nil_of_mem_rule6 _ _ _ h
  · intro q
    simp [get_graph_context_for_question, rule1Items, rule2Items, rule3Items,
      rule4Items, rule5Items, rule6Items, mkItem, db0, product_ids]

/-- Witness for C3 at a concrete store, question and item. -/
theorem graph_context_invariants_witness :
    ({ query_type := "top_revenue_tradeshows",
       results := [[("name", Val.scalar "Pollutec Paris"),
                    ("total_sales", Val.scalar "911750.0")]] } : GraphContextItem).results ≠ [] :=
  graph_context_invariants.1 db1 "top salons" _ (by decide)

/-- C4 counterexample: on the reduction string "12.5\ttonnes" (tab, not
space, before "tonnes") the claim's whitespace-split parse yields 12.5 per
unit, but the code's space-split parse feeds the whole string to `toFloat`
and the deployment contributes 0. -/
theorem co2_whitespace_split_claim_false :
    substrB "tonnes" dTab.co2_reduction = true ∧
    co2_saved_wsSplit dTab = 25 / 2 ∧
    co2_saved dTab = 0 ∧
    co2_saved dTab ≠ co2_saved_wsSplit dTab := by
  have h25 : co2_saved_wsSplit dTab = 25 / 2 := by
    have h : co2_saved_wsSplit dTab
        = (1 : ℚ) * (((12 : ℕ) : ℚ) + ((5 : ℕ) : ℚ) / (10 : ℚ) ^ (1 : ℕ)) * 1 := rfl
    rw [h]; norm_num
  have h0 : co2_saved dTab = 0 := rfl
  refine ⟨by decide, h25, h0, ?_⟩
  rw [h0, h25]
  norm_num

/-- C4 (amended: the split is on the space character, and a first token that
`toFloat` cannot parse contributes 0): "12.5 tonnes" with quantity 2
contributes 25.0, any string without "tonnes" (such as "unknown")
contributes 0, a parsed first token is multiplied by the quantity
(default 1), and the two-deployment sum is 25.0. -/
theorem co2_space_split_parse_rule :
    co2_saved { co2_reduction := "12.5 tonnes", quantity := some 2 } = 25 ∧
    (∀ q : Option ℚ, co2_saved { co2_reduction := "unknown", quantity := q } = 0) ∧
    (∀ (red : String) (q : Option ℚ), substrB "tonnes" red = false →
      co2_saved { co2_reduction := red, quantity := q } = 0) ∧
    (∀ (red : String) (q : Option ℚ) (x : ℚ), substrB "tonnes" red = true →
      parseFloat (firstSpaceToken red) = some x →
      co2_saved { co2_reduction := red, quantity := q } = x * q.getD 1) ∧
    total_co2_saved_tonnes [{ co2_reduction := "12.5 tonnes", quantity := some 2 },
      { co2_reduction := "unknown", quantity := none }] = 25 := by
  have h1 : co2_saved { co2_reduction := "12.5 tonnes", quantity := some 2 } = 25 := by
    have h : co2_saved { co2_reduction := "12.5 tonnes", quantity := some 2 }
        = (1 : ℚ) * (((12 : ℕ) : ℚ) + ((5 : ℕ) : ℚ) / (10 : ℚ) ^ (1 : ℕ)) * 2 := rfl
    rw [h]; norm_num
  have h2 : co2_saved { co2_reduction := "unknown", quantity := none } = 0 := rfl
  refine ⟨h1, fun q => rfl, ?_, ?_, ?_⟩
  · intro red q hf
    simp [co2_saved, hf]
  · intro red q x ht hp
    simp [co2_saved, ht, hp]
  · simp [total_co2_saved_tonnes, h1, h2]

/-- Witness for C4's amended parse rule at concrete inputs. -/
theorem co2_space_split_parse_rule_witness :
    co2_saved { co2_reduction := "3 tonnes", quantity := some 4 }
      = 3 * ((some (4 : ℚ)).getD 1) ∧
    co2_saved { co2_reduction := "rien", quantity := none } = 0 := by
  have hp : parseFloat (firstSpaceToken "3 tonnes") = some 3 := by
    have h : parseFloat (firstSpaceToken "3 tonnes") = some ((1 : ℚ) * ((3 : ℕ) : ℚ)) := rfl
    rw [h]; norm_num
  exact ⟨co2_space_split_parse_rule.2.2.2.1 "3 tonnes" (some 4) 3 (by decide) hp,
    co2_space_split_parse_rule.2.2.1 "rien" none (by decide)⟩

/-- C5: a supplied `force_strategy` replaces the classifier verdict — forcing
"multi_hop" always runs the hybrid path and forcing "simple" always runs the
simple path, whatever the classifier would say — and with no forced strategy
the classifier verdict alone selects the path. -/
theorem force_strategy_overrides_classifier :
    (∀ (env : Env) (db : GraphDB) (q : String),
        query env db q (some "multi_hop") = query_hybrid env db q) ∧
    (∀ (env : Env) (db : GraphDB) (q : String),
        query env db q (some "simple") = query_simple env db q) ∧
    (∀ (env : Env) (db : GraphDB) (q : String),
        query env db q none =
          if classify_question q = "multi_hop" then query_hybrid env db q
          else query_simple env db q) :=
  ⟨fun _ _ _ => rfl, fun _ _ _ => rfl, fun _ _ _ => rfl⟩

/-- C6: the extractor's output is exactly the concatenation of the six
rules' independent contributions — membership of an item is equivalent to
membership in one of the per-rule item lists, so no rule short-circuits
another — and a question triggering the collectivités rule and the
top-revenue rule yields both items. -/
theorem extractor_rules_independent :
    (∀ (db : GraphDB) (q : String),
      get_graph_context_for_question db q =
        rule1Items db (pyLower q) ++ rule2Items db (pyLower q) ++ rule3Items db (pyLower q) ++
          rule4Items db (pyLower q) ++ rule5Items db (pyLower q) ++ rule6Items db (pyLower q)) ∧
    (∀ (db : GraphDB) (q : String) (it : GraphContextItem),
      it ∈ get_graph_context_for_question db q ↔
        it ∈ rule1Items db (pyLower q) ∨ it ∈ rule2Items db (pyLower q) ∨
        it ∈ rule3Items db (pyLower q) ∨ it ∈ rule4Items db (pyLower q) ∨
        it ∈ rule5Items db (pyLower q) ∨ it ∈ rule6Items db (pyLower q)) ∧
    get_graph_context_for_question db1 qTwoRules =
      [{ query_type := "tradeshows_collectivites_sales",
         results := [[("tradeshow_name", Val.scalar "Pollutec Paris"),
                      ("customer_type", Val.scalar "collectivites")]] },
       { query_type := "top_revenue_tradeshows",
         results := [[("name", Val.scalar "Pollutec Paris"),
                      ("total_sales", Val.scalar "911750.0")]] }] := by
  refine ⟨fun db q => rfl, ?_, by decide⟩
  intro db q it
  simp only [get_graph_context_for_question, List.mem_append, or_assoc]

/-- C7: the Pollutec Paris question classifies as "multi_hop", and on it the
extractor runs exactly the events-with-products-sold-at-tradeshows rule with
the location parameter bound to "Paris", returning one item whenever that
query's result is non-empty. -/
theorem pollutec_paris_question_end_to_end :
    classify_question qPollutec = "multi_hop" ∧
    ∀ db : GraphDB, db.events_with_products_sold_at_tradeshows (some "Paris") ≠ [] →
      get_graph_context_for_question db qPollutec =
        [{ query_type := "events_with_products_sold_at_tradeshows",
           results := db.events_with_products_sold_at_tradeshows (some "Paris") }] := by
  refine ⟨by decide, ?_⟩
  intro db h
  have h0 : get_graph_context_for_question db qPollutec =
      mkItem "events_with_products_sold_at_tradeshows"
        (db.events_with_products_sold_at_tradeshows (some "Paris"))
        ++ [] ++ [] ++ [] ++ [] ++ [] := rfl
  rw [h0]
  simp [mkItem, List.isEmpty_iff, h]

/-- Witness for C7 at a concrete store with a non-empty Paris result. -/
theorem pollutec_paris_question_end_to_end_witness :
    get_graph_context_for_question db1 qPollutec =
      [{ query_type := "events_with_products_sold_at_tradeshows",
         results := db1.events_with_products_sold_at_tradeshows (some "Paris") }] :=
  pollutec_paris_question_end_to_end.2 db1 (by decide)

/-- C8: formatting the empty context yields the empty string, and formatting
one item whose text carries no embedded newline yields exactly one `---`
separator line per result row. -/
theorem format_empty_and_separator_count :
    format_graph_context [] = "" ∧
    ∀ it : GraphContextItem, nlFreeItem it = true →
      sepLineCount (format_graph_context [it]) = it.results.length := by
  refine ⟨rfl, ?_⟩
  intro it h
  by_cases he : it.results.isEmpty
  · have hfmt : format_graph_context [it] = "" := by
      simp [format_graph_context, formatItemParts, he, joinSep]
    have hz : sepLineCount ("" : String) = 0 := by decide
    rw [hfmt, hz, List.isEmpty_iff.mp he]
    rfl
  · have he' : it.results.isEmpty = false := by
      simpa using he
    have hfmt : format_graph_context [it] = joinSep "\n" (formatItemParts it) := by
      simp [format_graph_context]
    rw [hfmt]
    simp only [sepLineCount]
    rw [count_linesCh_joinSep, sepCountParts_item it h]

/-- Witness for C8 on a concrete two-row item. -/
theorem format_empty_and_separator_count_witness :
    nlFreeItem itW = true ∧
    sepLineCount (format_graph_context [itW]) = itW.results.length :=
  ⟨by decide, format_empty_and_separator_count.2 itW (by decide)⟩

/-- C9: every scalar field of every row of every formatted item occurs in
the formatted text as the literal substring `key: value`, every list field
as `key: ` followed by its elements joined with ", ", and in particular
formatting the row with fields name = "Pollutec Paris" and total_sales =
"911750.0" produces text containing "name: Pollutec Paris" and
"total_sales: 911750.0". -/
theorem formatted_context_round_trip :
    (∀ (ctx : List GraphContextItem) (it : GraphContextItem) (r : Row) (k s : String),
      it ∈ ctx → r ∈ it.results → (k, Val.scalar s) ∈ r →
      (k ++ ": " ++ s).data <:+: (format_graph_context ctx).data) ∧
    (∀ (ctx : List GraphContextItem) (it : GraphContextItem) (r : Row)
        (k : String) (es : List String),
      it ∈ ctx → r ∈ it.results → (k, Val.vlist es) ∈ r →
      (k ++ ": " ++ joinSep ", " es).data <:+: (format_graph_context ctx).data) ∧
    substrB "name: Pollutec Paris" (format_graph_context ctx9) = true ∧
    substrB "total_sales: 911750.0" (format_graph_context ctx9) = true := by
  refine ⟨?_, ?_, by decide, by decide⟩
  · intro ctx it r k s hit hr hkv
    exact field_line_infix ctx it r (k, Val.scalar s) hit hr hkv
  · intro ctx it r k es hit hr hkv
    exact field_line_infix ctx it r (k, Val.vlist es) hit hr hkv

/-- Witness for C9 on the concrete one-item context. -/
theorem formatted_context_round_trip_witness :
    ("name" ++ ": " ++ "Pollutec Paris").data <:+: (format_graph_context ctx9).data :=
  formatted_context_round_trip.1 ctx9
    { query_type := "top_revenue_tradeshows",
      results := [[("name", Val.scalar "Pollutec Paris"),
                   ("total_sales", Val.scalar "911750.0")]] }
    [("name", Val.scalar "Pollutec Paris"), ("total_sales", Val.scalar "911750.0")]
    "name" "Pollutec Paris" (by decide) (by decide) (by decide)

/-- C10: any truthy forced strategy other than the exact string "multi_hop"
(for example "hybrid") is accepted without validation and silently runs the
simple vector-only path, whose result carries strategy "simple". -/
theorem unvalidated_force_strategy_runs_simple (env : Env) (db : GraphDB) (q s : String)
    (hs : s ≠ "") (hm : s ≠ "multi_hop") :
    query env db q (some s) = query_simple env db q ∧
    (query env db q (some s)).strategy = "simple" := by
  have h : query env db q (some s) = query_simple env db q := by
    simp [query, hs, hm]
  exact ⟨h, by rw [h]; rfl⟩

/-- Witness for C10: forcing "hybrid" on a question the classifier would
route multi-hop still runs the simple path. -/
theorem unvalidated_force_strategy_runs_simple_witness :
    query env0 db0 qCO2 (some "hybrid") = query_simple env0 db0 qCO2 ∧
    (query env0 db0 qCO2 (some "hybrid")).strategy = "simple" :=
  unvalidated_force_strategy_runs_simple env0 db0 qCO2 "hybrid" (by decide) (by decide)

end RagHybrid
